import Mathlib

/-!
Verification of the SLAC EVSE session state machine (`slac/session.py`).

The development shallowly embeds the session data model and the matching
state machine of `slac/session.py`.  Socket I/O, wall-clock time and
randomness are made explicit: every `readeth`/`rcv_frame` outcome becomes a
parameter (a parsed frame, or an error standing for a timeout or parse
failure), and the time elapsed since the start of a sounding window is
attached to each received frame, exactly at the point where the code calls
`time_now_ms()`.

Modules `slac/enums.py`, `slac/utils.py` and `slac/messages.py` are not part
of the sources; the constants and decoders taken from them are modelled from
the spec and marked as such in their doc comments.
-/

/-- Python exception kinds raised by the embedded code paths.  Using a small
closed type keeps raised exceptions first-class values. -/
inductive PyErr where
  | valueError
  | typeError
  | indexError
deriving DecidableEq

/-- Modelled from the spec: EtherType of HomePlug AV frames (`slac/enums.py`
is not in the sources). -/
def ETH_TYPE_HPAV : Nat := 0x88E1

/-- Modelled from the spec: HomePlug management message version byte. -/
def HOMEPLUG_MMV : Nat := 0x01

/-- Modelled from the spec: MM type category for requests. -/
def MMTYPE_REQ : Nat := 0

/-- Modelled from the spec: MM type category for confirmations. -/
def MMTYPE_CNF : Nat := 1

/-- Modelled from the spec: MM type category for indications. -/
def MMTYPE_IND : Nat := 2

/-- Modelled from the spec: MM type category for responses. -/
def MMTYPE_RSP : Nat := 3

/-- Modelled from the spec: base MM code CM_SET_KEY. -/
def CM_SET_KEY : Nat := 0x6008

/-- Modelled from the spec: base MM code CM_SLAC_PARM. -/
def CM_SLAC_PARM : Nat := 0x6064

/-- Modelled from the spec: base MM code CM_START_ATTEN_CHAR. -/
def CM_START_ATTEN_CHAR : Nat := 0x6068

/-- Modelled from the spec: base MM code CM_ATTEN_CHAR. -/
def CM_ATTEN_CHAR : Nat := 0x606C

/-- Modelled from the spec: base MM code CM_MNBC_SOUND. -/
def CM_MNBC_SOUND : Nat := 0x6074

/-- Modelled from the spec: base MM code CM_SLAC_MATCH. -/
def CM_SLAC_MATCH : Nat := 0x607C

/-- Modelled from the spec: base MM code CM_ATTEN_PROFILE. -/
def CM_ATTEN_PROFILE : Nat := 0x6084

/-- Modelled from the spec: number of attenuation groups (58). -/
def SLAC_GROUPS : Nat := 58

/-- Modelled from the spec: number of sounds advertised in SLAC_PARM.CNF
(`num_sounds = 0x0A`). -/
def SLAC_MSOUNDS : Nat := 10

/-- Modelled from the spec: default sounding window in milliseconds
(advertised `time_out = 6`, in units of 100 ms). -/
def SLAC_ATTEN_TIMEOUT : Nat := 600

/-- Modelled from the spec: widened sounding window factor; `time_out_ms`
becomes `ATTEN_RESULTS_TIMEOUT * 100 = 900` ms once START_ATTEN_CHAR.IND is
processed. -/
def ATTEN_RESULTS_TIMEOUT : Nat := 9

/-- Modelled from the spec: expected RESP_TYPE value (1). -/
def SLAC_RESP_TYPE : Nat := 1

/-- Modelled from the spec: attenuation threshold default.  The spec gives no
numeric value; the development only relies on `reset` restoring this same
constant. -/
def SLAC_LIMIT : Nat := 0

/-- Modelled from the spec: pause between sounds.  The spec gives no numeric
value; the development only relies on `reset` restoring this same constant. -/
def SLAC_PAUSE : Nat := 0

/-- Modelled from the spec: settle time after CM_SET_KEY (10 s nominal). -/
def SLAC_SETTLE_TIME : Nat := 10

/-- Modelled from the spec: the Unmatched session state.  The three state
constants of `slac/enums.py` are unknown integers; only their distinctness
is used. -/
def STATE_UNMATCHED : Nat := 0

/-- Modelled from the spec: the Matching session state. -/
def STATE_MATCHING : Nat := 1

/-- Modelled from the spec: the Matched session state. -/
def STATE_MATCHED : Nat := 2

/-- Modelled from the spec: the 17-byte ASCII EVSE identifier
(`bytes.fromhex(EVSE_ID)`).  The concrete bytes are deployment data; the
development only relies on `reset` restoring this same constant. -/
def EVSE_ID_BYTES : List Nat := List.replicate 17 0x41

/-- Modelled from the spec: read size used for CM_MNBC_SOUND.IND frames
(Ethernet 14 + HomePlug 5 + payload 52 bytes). -/
def FramesSizes.CM_MNBC_SOUND_IND : Nat := 71

/-- Modelled from the spec: read size used for CM_ATTEN_PROFILE.IND frames
(Ethernet 14 + HomePlug 5 + payload 64 bytes). -/
def FramesSizes.CM_ATTEN_PROFILE_IND : Nat := 83

/-- The value held by the Python attribute `SlacSession.aag`.  It is normally
a list of integers, but `SlacSession.reset` assigns
`field(default_factory=lambda: [0] * SLAC_GROUPS)`, which at runtime stores a
`dataclasses.field` sentinel object instead of a list; the `sentinel`
constructor represents that object. -/
inductive AagField where
  | vals (l : List Nat)
  | sentinel
deriving DecidableEq

/-- Embedding of the dataclass `SlacSession` (and the extra attributes used
by `SlacEvseSession`).  Byte strings are lists of byte values; `Optional`
attributes are `Option`; the asyncio task handle is reduced to presence. -/
structure SlacSession where
  state : Nat
  nmk : List Nat
  nid : List Nat
  forwarding_sta : List Nat
  pev_id : Option (List Nat)
  pev_mac : List Nat
  evse_id : List Nat
  evse_mac : List Nat
  run_id : List Nat
  application_type : Nat
  security_type : Nat
  num_start_attn_rcvd : Nat
  num_expected_sounds : Option Nat
  num_total_sounds : Nat
  sounds : Nat
  time_out_ms : Nat
  aag : AagField
  num_groups : Option Nat
  rnd : List Nat
  slac_threshold : Nat
  pause : Nat
  settle_time : Nat
  matching_process_task : Option Unit
  mqtt_msg_counter : Nat
deriving DecidableEq

/-- Embedding of `SlacSession.reset`.  Every assignment of the Python method
is reproduced, including `self.aag = field(default_factory=lambda: [0] *
SLAC_GROUPS)`, which stores the `dataclasses.field` sentinel rather than a
list, and `self.evse_mac = b""`.  `nmk`, `nid` and `mqtt_msg_counter` are not
assigned. -/
def SlacSession.reset (s : SlacSession) : SlacSession :=
  { s with
    state := STATE_UNMATCHED
    forwarding_sta := []
    pev_id := none
    pev_mac := []
    evse_id := EVSE_ID_BYTES
    evse_mac := []
    run_id := []
    application_type := 0x00
    security_type := 0x00
    num_start_attn_rcvd := 0
    num_expected_sounds := none
    num_total_sounds := 0
    sounds := SLAC_MSOUNDS
    time_out_ms := SLAC_ATTEN_TIMEOUT
    aag := AagField.sentinel
    num_groups := none
    rnd := List.replicate 17 0
    slac_threshold := SLAC_LIMIT
    pause := SLAC_PAUSE
    settle_time := SLAC_SETTLE_TIME
    matching_process_task := none }

/-- Embedding of `slac/layer_2_headers.py` `EthernetHeader` (only the parsed
view used by the session code). -/
structure EthernetHeader where
  dst_mac : List Nat
  src_mac : List Nat
  ether_type : Nat
deriving DecidableEq

/-- Embedding of `slac/layer_2_headers.py` `HomePlugHeader` (only the parsed
view used by the session code). -/
structure HomePlugHeader where
  mmv : Nat
  mm_type : Nat
deriving DecidableEq

/-- Modelled from the spec: the parsed CM_MNBC_SOUND.IND payload
(`slac/messages.py` `MnbcSound`). -/
structure MnbcSound where
  application_type : Nat
  security_type : Nat
  sender_id : List Nat
  cnt : Nat
  run_id : List Nat
deriving DecidableEq

/-- Modelled from the spec: the parsed CM_ATTEN_PROFILE.IND payload
(`slac/messages.py` `AttenProfile`). -/
structure AttenProfile where
  pev_mac : List Nat
  num_groups : Nat
  aag : List Nat
deriving DecidableEq

/-- The SLAC-relevant content carried by the bytes a sounding-loop read
returns, beyond the two headers: a well-formed MNBC sound, a well-formed
attenuation profile, or anything else. -/
inductive SoundPayload where
  | mnbc (m : MnbcSound)
  | profile (p : AttenProfile)
  | other
deriving DecidableEq

/-- Modelled from the spec: `MnbcSound.from_bytes` (from the missing
`slac/messages.py`).  Decoders fail with a `ValueError` when the received
bytes do not form the declared layout; on our structured frames this means
the payload is not an MNBC sound. -/
def MnbcSound.from_bytes : SoundPayload → Except PyErr MnbcSound
  | SoundPayload.mnbc m => Except.ok m
  | _ => Except.error PyErr.valueError

/-- Modelled from the spec: `AttenProfile.from_bytes` (from the missing
`slac/messages.py`), failing with a `ValueError` when the received bytes do
not form an attenuation profile. -/
def AttenProfile.from_bytes : SoundPayload → Except PyErr AttenProfile
  | SoundPayload.profile p => Except.ok p
  | _ => Except.error PyErr.valueError

/-- Modelled from the spec: `slac/utils.py` `half_round` applied to the exact
rational `s / n` (banker-style rounding, ties to even).  The Python code
computes it on a float; for the magnitudes reachable here (byte-valued
attenuations summed over a sounding window) the float quotient is exact on
ties and never crosses a tie, so the rational rounding agrees. -/
def half_round (s n : Nat) : Nat :=
  let q := s / n
  let r := s % n
  if 2 * r < n then q
  else if n < 2 * r then q + 1
  else if q % 2 = 0 then q else q + 1

/-- The in-place update `for group in range(n): aag[group] += vals[group]`
performed by `process_sound_frame` on the local `aag` accumulator. -/
def addGroups (acc : List Nat) (vals : List Nat) (n : Nat) : List Nat :=
  acc.mapIdx fun i a => if i < n then a + vals.getD i 0 else a

/-- Embedding of `SlacEvseSession.process_sound_frame`.  The raw received
bytes are replaced by their parsed content (`payload`); the method's
mutations of `self` and of the local accumulator list are returned
explicitly, together with the returned next expected frame size (`none`
models Python's implicit `None` when neither MM type matches).  A thrown
Python exception becomes `Except.error`. -/
def process_sound_frame (s : SlacSession) (homeplug_frame : HomePlugHeader)
    (ether_frame : EthernetHeader) (payload : SoundPayload) (sounds_rcvd : Nat)
    (aag : List Nat) : Except PyErr (SlacSession × List Nat × Option Nat) :=
  if homeplug_frame.mm_type = CM_MNBC_SOUND ||| MMTYPE_IND then
    match MnbcSound.from_bytes payload with
    | Except.error e => Except.error e
    | Except.ok mnbc_sound_ind =>
      if s.run_id = mnbc_sound_ind.run_id then
        if s.pev_mac ≠ ether_frame.src_mac then
          Except.error PyErr.valueError
        else
          Except.ok (s, aag, some FramesSizes.CM_ATTEN_PROFILE_IND)
      else
        Except.ok (s, aag, some FramesSizes.CM_ATTEN_PROFILE_IND)
  else if homeplug_frame.mm_type = CM_ATTEN_PROFILE ||| MMTYPE_IND then
    match AttenProfile.from_bytes payload with
    | Except.error e => Except.error e
    | Except.ok atten_profile_ind =>
      if s.pev_mac = atten_profile_ind.pev_mac then
        if atten_profile_ind.num_groups ≤ aag.length ∧
            atten_profile_ind.num_groups ≤ atten_profile_ind.aag.length then
          Except.ok
            ({ s with
                num_groups := some atten_profile_ind.num_groups
                num_total_sounds := s.num_total_sounds + 1 },
              addGroups aag atten_profile_ind.aag atten_profile_ind.num_groups,
              some FramesSizes.CM_MNBC_SOUND_IND)
        else
          Except.error PyErr.indexError
      else
        Except.ok (s, aag, some FramesSizes.CM_MNBC_SOUND_IND)
  else
    Except.ok (s, aag, none)

/-- One outcome of a `rcv_frame` call inside `cm_sounds_loop`: either a frame
whose headers parsed (with `elapsed` the value `time_now_ms() - time_start`
observed right after the frame is processed), or any exception raised by the
read or the header parsing (a read timeout in particular). -/
inductive ReadEvent where
  | frame (elapsed : Nat) (eth : EthernetHeader) (hp : HomePlugHeader)
      (payload : SoundPayload)
  | readErr
deriving DecidableEq

/-- Result of running `cm_sounds_loop` against a finite trace of read
outcomes. `exhausted` means the trace ended while the loop was still waiting
for the next frame (the loop did not terminate within the trace);
`returned` is the normal return through the averaging branch; `errReturn` is
the return from the `except` handler around the read (state forced to
Unmatched); `raised` is an exception propagating out of the coroutine. -/
inductive LoopExit where
  | exhausted (s : SlacSession) (acc : List Nat) (next : Option Nat)
  | returned (s : SlacSession)
  | errReturn (s : SlacSession)
  | raised (s : SlacSession) (e : PyErr)
deriving DecidableEq

/-- The averaging epilogue of `cm_sounds_loop`: when at least one sound was
aggregated, `self.aag[group] = hw(aag[group] / self.num_total_sounds)` for
every group. -/
def finish_avg (s : SlacSession) (acc : List Nat) : SlacSession :=
  if 0 < s.num_total_sounds then
    { s with
        aag := AagField.vals ((List.range SLAC_GROUPS).map fun g =>
          half_round (acc.getD g 0) s.num_total_sounds) }
  else s

/-- The `while True` body of `cm_sounds_loop`, run against a finite trace of
read outcomes.  `acc` is the local `aag` accumulator list and `next` the
current `next_frame_expected` value passed to the next read.  Mirrors the
source: the read and header parsing sit inside `try/except` (any exception
sets the state to Unmatched and returns); `process_sound_frame` and the
window check sit outside it, so their exceptions propagate; the window check
only runs after a frame with HPAV EtherType and MMV 0x01, and Python's
short-circuit `and` reaches the `None` comparison (a `TypeError`) only when
time remains. -/
def cm_sounds_loop_go (s : SlacSession) (acc : List Nat) (next : Option Nat) :
    List ReadEvent → LoopExit
  | [] => LoopExit.exhausted s acc next
  | ReadEvent.readErr :: _ =>
    LoopExit.errReturn { s with state := STATE_UNMATCHED }
  | ReadEvent.frame elapsed eth hp payload :: rest =>
    if eth.ether_type = ETH_TYPE_HPAV ∧ hp.mmv = HOMEPLUG_MMV then
      match process_sound_frame s hp eth payload 0 acc with
      | Except.error e => LoopExit.raised s e
      | Except.ok (s', acc', next') =>
        if elapsed < s'.time_out_ms then
          match s'.num_expected_sounds with
          | none => LoopExit.raised s' PyErr.typeError
          | some nexp =>
            if s'.num_total_sounds < nexp then
              cm_sounds_loop_go s' acc' next' rest
            else
              LoopExit.returned (finish_avg s' acc')
        else
          LoopExit.returned (finish_avg s' acc')
    else
      cm_sounds_loop_go s acc next rest

/-- The initialisation prefix of `cm_sounds_loop`: `self.aag` is reassigned
to a fresh list of 58 zeros and `self.num_total_sounds` to 0. -/
def sounds_loop_init (s : SlacSession) : SlacSession :=
  { s with
      aag := AagField.vals (List.replicate SLAC_GROUPS 0)
      num_total_sounds := 0 }

/-- Embedding of `SlacEvseSession.cm_sounds_loop` against a finite trace of
read outcomes.  The local accumulator starts at 58 zeros and the first read
expects a CM_MNBC_SOUND.IND-sized frame. -/
def cm_sounds_loop (s : SlacSession) (events : List ReadEvent) : LoopExit :=
  cm_sounds_loop_go (sounds_loop_init s) (List.replicate SLAC_GROUPS 0)
    (some FramesSizes.CM_MNBC_SOUND_IND) events

/-- Reference aggregation, following the spec's words for claim C6: the
per-group sums and the count of the CM_ATTEN_PROFILE.IND frames accepted
during the sounding loop (frames with HPAV EtherType, MMV 0x01, the
CM_ATTEN_PROFILE indication MM type and a PEV MAC equal to the session's).
Used only to compare the loop's result against the spec's description. -/
def soundAgg (pev : List Nat) : List Nat × Nat → List ReadEvent → List Nat × Nat
  | p, [] => p
  | (acc, n), ReadEvent.frame _ eth hp (SoundPayload.profile pr) :: rest =>
    if eth.ether_type = ETH_TYPE_HPAV ∧ hp.mmv = HOMEPLUG_MMV ∧
        hp.mm_type = CM_ATTEN_PROFILE ||| MMTYPE_IND ∧ pev = pr.pev_mac then
      soundAgg pev (addGroups acc pr.aag pr.num_groups, n + 1) rest
    else
      soundAgg pev (acc, n) rest
  | (acc, n), _ :: rest => soundAgg pev (acc, n) rest

/-- A read outcome that never reaches the sounding-window check: a frame
whose EtherType is not HPAV or whose MMV is not 0x01. -/
def nonQualifying : ReadEvent → Prop
  | ReadEvent.frame _ eth hp _ =>
    ¬(eth.ether_type = ETH_TYPE_HPAV ∧ hp.mmv = HOMEPLUG_MMV)
  | ReadEvent.readErr => False

instance (e : ReadEvent) : Decidable (nonQualifying e) := by
  cases e with
  | frame t eth hp payload => exact instDecidableNot
  | readErr => exact instDecidableFalse

/-- Modelled from the spec: the parsed CM_SET_KEY.CNF payload
(`slac/messages.py` `SetKeyCnf`). -/
structure SetKeyCnf where
  result : Nat
  my_nonce : List Nat
  your_nonce : List Nat
  pid : Nat
  prn : List Nat
  pmn : Nat
  cco_cap : Nat
deriving DecidableEq

/-- Modelled from the spec: `SetKeyCnf.from_bytes` (from the missing
`slac/messages.py`).  The frame is Ethernet header (14) + HomePlug header (5)
+ payload `result(1) | my_nonce(4) | your_nonce(4) | pid(1) | prn(2) | pmn(1)
| cco_cap(1)`; per the spec's codec contract the decoder fails (ValueError)
exactly when the data is shorter than the declared layout (33 bytes), and
performs no validation of the decoded field values. -/
def SetKeyCnf.from_bytes (data : List Nat) : Except PyErr SetKeyCnf :=
  if data.length < 33 then Except.error PyErr.valueError
  else
    Except.ok
      { result := data.getD 19 0
        my_nonce := (data.drop 20).take 4
        your_nonce := (data.drop 24).take 4
        pid := data.getD 28 0
        prn := (data.drop 29).take 2
        pmn := data.getD 31 0
        cco_cap := data.getD 32 0 }

/-- Embedding of the decision core of `SlacEvseSession.evse_set_key`.  The
freshly generated key pair (`urandom(16)` and `generate_nid`) and the bytes
returned by `send_recv_eth` are parameters.  The source commits `nmk`/`nid`
into the session whenever `SetKeyCnf.from_bytes` succeeds and keeps the
previous values (catching the `ValueError` and returning) when it fails; no
field of the parsed confirmation is inspected. -/
def evse_set_key (s : SlacSession) (nmk nid : List Nat)
    (payload_rcvd : List Nat) : SlacSession :=
  match SetKeyCnf.from_bytes payload_rcvd with
  | Except.ok _ => { s with nmk := nmk, nid := nid }
  | Except.error _ => s

/-- Modelled from the spec: the parsed CM_START_ATTEN_CHAR.IND payload
(`slac/messages.py` `StartAtennChar`). -/
structure StartAtennChar where
  application_type : Nat
  security_type : Nat
  num_sounds : Nat
  time_out : Nat
  resp_type : Nat
  forwarding_sta : List Nat
  run_id : List Nat
deriving DecidableEq

/-- Modelled from the spec: the parsed CM_ATTEN_CHAR.RSP payload
(`slac/messages.py` `AtennCharRsp`). -/
structure AtennCharRsp where
  application_type : Nat
  security_type : Nat
  source_address : List Nat
  run_id : List Nat
  source_id : List Nat
  resp_id : List Nat
  result : Nat
deriving DecidableEq

/-- Modelled from the spec: the parsed CM_SLAC_MATCH.REQ payload
(`slac/messages.py` `MatchReq`). -/
structure MatchReq where
  application_type : Nat
  security_type : Nat
  mvf_length : Nat
  pev_id : List Nat
  pev_mac : List Nat
  evse_id : List Nat
  evse_mac : List Nat
  run_id : List Nat
deriving DecidableEq

/-- The CM_SLAC_MATCH.CNF content built and sent by `cm_slac_match` (the
fields the session code fills in `MatchCnf`). -/
structure MatchCnf where
  pev_mac : List Nat
  evse_mac : List Nat
  run_id : List Nat
  nid : List Nat
  nmk : List Nat
deriving DecidableEq

/-- Embedding of `SlacEvseSession.cm_start_atten_charac`.  The read is a
parameter: `Except.error` stands for any exception raised by the read or the
three `from_bytes` calls (all caught: state forced to Unmatched, return).
On a validation mismatch the source logs and returns with state Unmatched;
on success it records `num_expected_sounds`, widens `time_out_ms` to
`ATTEN_RESULTS_TIMEOUT * 100` and stores the forwarding station. -/
def cm_start_atten_charac (s : SlacSession)
    (read : Except Unit (EthernetHeader × HomePlugHeader × StartAtennChar)) :
    SlacSession :=
  match read with
  | Except.error _ => { s with state := STATE_UNMATCHED }
  | Except.ok (_, homeplug_frame, start_atten_char) =>
    if s.application_type ≠ start_atten_char.application_type ∨
        s.security_type ≠ start_atten_char.security_type ∨
        s.run_id ≠ start_atten_char.run_id ∨
        start_atten_char.resp_type ≠ SLAC_RESP_TYPE ∨
        homeplug_frame.mm_type ≠ CM_START_ATTEN_CHAR ||| MMTYPE_IND then
      { s with state := STATE_UNMATCHED }
    else
      { s with
          num_expected_sounds := some start_atten_char.num_sounds
          time_out_ms := ATTEN_RESULTS_TIMEOUT * 100
          forwarding_sta := start_atten_char.forwarding_sta }

/-- Embedding of `SlacEvseSession.cm_atten_char` (the send of the
CM_ATTEN_CHAR.IND is outside the session record).  The read of the
CM_ATTEN_CHAR.RSP is a parameter.  Mirrors the source: a read/parse
exception is caught (state Unmatched, return); the EtherType/MMV/run-id
mismatch branch sets state to Unmatched but does NOT return; the result
check then returns early only when `result` is nonzero. The method never
raises. -/
def cm_atten_char (s : SlacSession)
    (read : Except Unit (EthernetHeader × HomePlugHeader × AtennCharRsp)) :
    SlacSession :=
  match read with
  | Except.error _ => { s with state := STATE_UNMATCHED }
  | Except.ok (ether_frame, homeplug_frame, atten_charac_response) =>
    let s1 :=
      if ether_frame.ether_type ≠ ETH_TYPE_HPAV ∨
          homeplug_frame.mmv ≠ HOMEPLUG_MMV ∨
          s.run_id ≠ atten_charac_response.run_id then
        { s with state := STATE_UNMATCHED }
      else s
    if atten_charac_response.result ≠ 0 then
      { s1 with state := STATE_UNMATCHED }
    else s1

/-- Result of `cm_slac_match`: a normal return (carrying the possibly sent
CM_SLAC_MATCH.CNF) or a `ValueError` propagating to the caller. -/
inductive MatchExit where
  | returned (s : SlacSession) (sent : Option MatchCnf)
  | raisedErr (s : SlacSession)
deriving DecidableEq

/-- Embedding of `SlacEvseSession.cm_slac_match`.  The read of the
CM_SLAC_MATCH.REQ is a parameter.  Mirrors the source: a read/parse
exception is caught (state Unmatched, return, nothing sent); a failed
validation of EtherType, MMV, MM type or run id raises `ValueError`
(propagating, state untouched, nothing sent); otherwise `pev_id` and
`pev_mac` are learned, the CNF with the current `nid`/`nmk` is sent and the
state becomes Matched. -/
def cm_slac_match (s : SlacSession)
    (read : Except Unit (EthernetHeader × HomePlugHeader × MatchReq)) :
    MatchExit :=
  match read with
  | Except.error _ => MatchExit.returned { s with state := STATE_UNMATCHED } none
  | Except.ok (ether_frame, homeplug_frame, slac_match_req) =>
    if ether_frame.ether_type ≠ ETH_TYPE_HPAV ∨
        homeplug_frame.mmv ≠ HOMEPLUG_MMV ∨
        homeplug_frame.mm_type ≠ CM_SLAC_MATCH ||| MMTYPE_REQ ∨
        slac_match_req.run_id ≠ s.run_id then
      MatchExit.raisedErr s
    else
      let s' := { s with
        pev_id := some slac_match_req.pev_id
        pev_mac := slac_match_req.pev_mac }
      MatchExit.returned { s' with state := STATE_MATCHED }
        (some { pev_mac := s'.pev_mac
                evse_mac := s'.evse_mac
                run_id := s'.run_id
                nid := s'.nid
                nmk := s'.nmk })

/-- Result of `atten_charac_routine` on a finite trace: a normal completion
(carrying the CNF sent by `cm_slac_match`, if any), a run whose sounding
trace ended with the loop still reading, or an exception propagating out of
one of the awaited steps. -/
inductive RoutineExit where
  | done (s : SlacSession) (sent : Option MatchCnf)
  | blocked (s : SlacSession) (acc : List Nat) (next : Option Nat)
  | raisedErr (s : SlacSession) (e : PyErr)
deriving DecidableEq

/-- Embedding of `SlacEvseSession.atten_charac_routine`: the four steps are
awaited in order and an exception from any of them aborts the sequence.
`cm_start_atten_charac` and `cm_atten_char` never raise; both return paths
of `cm_sounds_loop` (normal and exception-caught) fall through to the next
step. -/
def atten_charac_routine (s : SlacSession)
    (startRead : Except Unit (EthernetHeader × HomePlugHeader × StartAtennChar))
    (soundEvents : List ReadEvent)
    (attenRead : Except Unit (EthernetHeader × HomePlugHeader × AtennCharRsp))
    (matchRead : Except Unit (EthernetHeader × HomePlugHeader × MatchReq)) :
    RoutineExit :=
  let s1 := cm_start_atten_charac s startRead
  match cm_sounds_loop s1 soundEvents with
  | LoopExit.raised s2 e => RoutineExit.raisedErr s2 e
  | LoopExit.exhausted s2 acc next => RoutineExit.blocked s2 acc next
  | LoopExit.returned s2 =>
    match cm_slac_match (cm_atten_char s2 attenRead) matchRead with
    | MatchExit.returned s4 sent => RoutineExit.done s4 sent
    | MatchExit.raisedErr s4 => RoutineExit.raisedErr s4 PyErr.valueError
  | LoopExit.errReturn s2 =>
    match cm_slac_match (cm_atten_char s2 attenRead) matchRead with
    | MatchExit.returned s4 sent => RoutineExit.done s4 sent
    | MatchExit.raisedErr s4 => RoutineExit.raisedErr s4 PyErr.valueError

/-- The session record carried by a loop exit, whichever way the loop
ended. -/
def LoopExit.session : LoopExit → SlacSession
  | LoopExit.exhausted s _ _ => s
  | LoopExit.returned s => s
  | LoopExit.errReturn s => s
  | LoopExit.raised s _ => s

/-- Whether a loop exit is the normal return through the averaging branch. -/
def LoopExit.isReturned : LoopExit → Bool
  | LoopExit.returned _ => true
  | _ => false

/-- A concrete mid-handshake session used by the concrete runs below: the
EV at MAC 01:02:03:04:05:06 has been through SLAC_PARM with run id
01…01, the session is Matching and expects 10 sounds within 900 ms. -/
def sampleSession : SlacSession :=
  { state := STATE_MATCHING
    nmk := List.replicate 16 5
    nid := List.replicate 7 3
    forwarding_sta := [1, 2, 3, 4, 5, 6]
    pev_id := none
    pev_mac := [1, 2, 3, 4, 5, 6]
    evse_id := EVSE_ID_BYTES
    evse_mac := [7, 8, 9, 10, 11, 12]
    run_id := [1, 1, 1, 1, 1, 1, 1, 1]
    application_type := 0
    security_type := 0
    num_start_attn_rcvd := 0
    num_expected_sounds := some 10
    num_total_sounds := 0
    sounds := SLAC_MSOUNDS
    time_out_ms := 900
    aag := AagField.vals (List.replicate 58 0)
    num_groups := none
    rnd := List.replicate 17 0
    slac_threshold := SLAC_LIMIT
    pause := SLAC_PAUSE
    settle_time := SLAC_SETTLE_TIME
    matching_process_task := none
    mqtt_msg_counter := 0 }

/-- Ethernet header of a frame sent by the matched EV to the EVSE. -/
def pevEth : EthernetHeader :=
  { dst_mac := [7, 8, 9, 10, 11, 12]
    src_mac := [1, 2, 3, 4, 5, 6]
    ether_type := ETH_TYPE_HPAV }

/-- HomePlug header of a CM_SLAC_MATCH.REQ frame. -/
def c3hp : HomePlugHeader :=
  { mmv := HOMEPLUG_MMV, mm_type := CM_SLAC_MATCH ||| MMTYPE_REQ }

/-- A CM_SLAC_MATCH.REQ whose run id 09…09 differs from the session's
01…01. -/
def c3req : MatchReq :=
  { application_type := 0
    security_type := 0
    mvf_length := 0x3E
    pev_id := List.replicate 17 2
    pev_mac := [1, 2, 3, 4, 5, 6]
    evse_id := EVSE_ID_BYTES
    evse_mac := [7, 8, 9, 10, 11, 12]
    run_id := [9, 9, 9, 9, 9, 9, 9, 9] }

/-- Ethernet header of an MNBC sound coming from an unexpected source MAC
09:09:09:09:09:09 (different from the session's PEV MAC). -/
def c4eth : EthernetHeader :=
  { dst_mac := [7, 8, 9, 10, 11, 12]
    src_mac := [9, 9, 9, 9, 9, 9]
    ether_type := ETH_TYPE_HPAV }

/-- HomePlug header of a CM_MNBC_SOUND.IND frame. -/
def c4hp : HomePlugHeader :=
  { mmv := HOMEPLUG_MMV, mm_type := CM_MNBC_SOUND ||| MMTYPE_IND }

/-- An MNBC sound carrying the session's run id 01…01. -/
def c4m : MnbcSound :=
  { application_type := 0
    security_type := 0
    sender_id := List.replicate 17 0
    cnt := 3
    run_id := [1, 1, 1, 1, 1, 1, 1, 1] }

/-- A fresh NMK candidate for the SET_KEY run. -/
def c5nmk : List Nat := List.replicate 16 9

/-- A fresh NID candidate for the SET_KEY run. -/
def c5nid : List Nat := List.replicate 7 1

/-- A 33-byte SET_KEY.CNF frame whose result byte (offset 19) is 0xFF. -/
def c5payload : List Nat := List.replicate 19 0 ++ 0xFF :: List.replicate 13 0

/-- The sample session expecting 2 sounds, for a complete sounding run. -/
def c6s : SlacSession := { sampleSession with num_expected_sounds := some 2 }

/-- HomePlug header of a CM_ATTEN_PROFILE.IND frame. -/
def profileHp : HomePlugHeader :=
  { mmv := HOMEPLUG_MMV, mm_type := CM_ATTEN_PROFILE ||| MMTYPE_IND }

/-- First attenuation profile of the run: two groups, values 4 and 6. -/
def c6p1 : AttenProfile :=
  { pev_mac := [1, 2, 3, 4, 5, 6], num_groups := 2, aag := [4, 6] }

/-- Second attenuation profile of the run: two groups, values 5 and 6. -/
def c6p2 : AttenProfile :=
  { pev_mac := [1, 2, 3, 4, 5, 6], num_groups := 2, aag := [5, 6] }

/-- A sounding trace delivering two accepted attenuation profiles at 10 ms
and 20 ms into the window. -/
def c6events : List ReadEvent :=
  [ReadEvent.frame 10 pevEth profileHp (SoundPayload.profile c6p1),
   ReadEvent.frame 20 pevEth profileHp (SoundPayload.profile c6p2)]

/-- The session produced by `cm_sounds_loop c6s c6events`: two sounds
aggregated, group sums 9 and 12 averaged (banker-rounded) to 4 and 6. -/
def c6s_final : SlacSession :=
  { c6s with
      num_groups := some 2
      num_total_sounds := 2
      aag := AagField.vals (4 :: 6 :: List.replicate 56 0) }

/-- The sample session told by START_ATTEN_CHAR to expect zero sounds. -/
def c7s : SlacSession := { sampleSession with num_expected_sounds := some 0 }

/-- A sounding trace delivering one accepted attenuation profile 10 ms into
the window. -/
def c7events : List ReadEvent :=
  [ReadEvent.frame 10 pevEth profileHp (SoundPayload.profile c6p1)]

/-- HomePlug header of a CM_START_ATTEN_CHAR.IND frame. -/
def c8shp : HomePlugHeader :=
  { mmv := HOMEPLUG_MMV, mm_type := CM_START_ATTEN_CHAR ||| MMTYPE_IND }

/-- A valid START_ATTEN_CHAR indication announcing a single sound. -/
def c8sac : StartAtennChar :=
  { application_type := 0
    security_type := 0
    num_sounds := 1
    time_out := 6
    resp_type := SLAC_RESP_TYPE
    forwarding_sta := [1, 2, 3, 4, 5, 6]
    run_id := [1, 1, 1, 1, 1, 1, 1, 1] }

/-- The start-step read outcome of the concrete C8 run. -/
def c8start : Except Unit (EthernetHeader × HomePlugHeader × StartAtennChar) :=
  Except.ok (pevEth, c8shp, c8sac)

/-- The sounding trace of the concrete C8 run: one accepted profile. -/
def c8sounds : List ReadEvent :=
  [ReadEvent.frame 10 pevEth profileHp (SoundPayload.profile c6p1)]

/-- The session right after the C8 sounding loop returns. -/
def c8s2 : SlacSession :=
  { sampleSession with
      num_expected_sounds := some 1
      time_out_ms := 900
      forwarding_sta := [1, 2, 3, 4, 5, 6]
      num_groups := some 2
      num_total_sounds := 1
      aag := AagField.vals (4 :: 6 :: List.replicate 56 0) }

/-- HomePlug header of a CM_ATTEN_CHAR.RSP frame. -/
def c8ahp : HomePlugHeader :=
  { mmv := HOMEPLUG_MMV, mm_type := CM_ATTEN_CHAR ||| MMTYPE_RSP }

/-- An ATTEN_CHAR response with result 0 but a foreign run id 09…09. -/
def c8rsp : AtennCharRsp :=
  { application_type := 0
    security_type := 0
    source_address := [1, 2, 3, 4, 5, 6]
    run_id := [9, 9, 9, 9, 9, 9, 9, 9]
    source_id := List.replicate 17 0
    resp_id := List.replicate 17 0
    result := 0 }

/-- HomePlug header of a CM_SLAC_MATCH.REQ frame (C8 run). -/
def c8mhp : HomePlugHeader :=
  { mmv := HOMEPLUG_MMV, mm_type := CM_SLAC_MATCH ||| MMTYPE_REQ }

/-- A fully valid SLAC_MATCH request carrying the session's run id. -/
def c8mreq : MatchReq :=
  { application_type := 0
    security_type := 0
    mvf_length := 0x3E
    pev_id := List.replicate 17 7
    pev_mac := [1, 2, 3, 4, 5, 6]
    evse_id := EVSE_ID_BYTES
    evse_mac := [7, 8, 9, 10, 11, 12]
    run_id := [1, 1, 1, 1, 1, 1, 1, 1] }

/-- Ethernet header of a frame that is not HomePlug AV (EtherType 0x0800). -/
def c9eth : EthernetHeader :=
  { dst_mac := [7, 8, 9, 10, 11, 12]
    src_mac := [9, 9, 9, 9, 9, 9]
    ether_type := 0x0800 }

/-- A trace of two non-HPAV frames observed far beyond the 900 ms window. -/
def c9events : List ReadEvent :=
  [ReadEvent.frame 1000000 c9eth c4hp SoundPayload.other,
   ReadEvent.frame 2000000 c9eth c4hp SoundPayload.other]

/-- HomePlug header of an HPAV frame that is neither an MNBC sound nor an
attenuation profile (a CM_SLAC_PARM confirmation). -/
def c10hp : HomePlugHeader :=
  { mmv := HOMEPLUG_MMV, mm_type := CM_SLAC_PARM ||| MMTYPE_CNF }

instance {ε α : Type} [DecidableEq ε] [DecidableEq α] : DecidableEq (Except ε α) :=
  fun a b =>
    match a, b with
    | Except.ok x, Except.ok y =>
      if h : x = y then Decidable.isTrue (by rw [h])
      else Decidable.isFalse (by intro hc; cases hc; exact h rfl)
    | Except.error x, Except.error y =>
      if h : x = y then Decidable.isTrue (by rw [h])
      else Decidable.isFalse (by intro hc; cases hc; exact h rfl)
    | Except.ok _, Except.error _ => Decidable.isFalse (by intro hc; cases hc)
    | Except.error _, Except.ok _ => Decidable.isFalse (by intro hc; cases hc)

/-- Counterexample to claim C1: with the session in Matching and 10 sounds
expected, a read timeout on the very first frame makes `cm_sounds_loop`
return at once through the exception handler, with the state forced to
Unmatched — the loop is aborted and the session state does change, no
retry with the same expected frame size happens. -/
theorem c1_counterexample :
    cm_sounds_loop sampleSession [ReadEvent.readErr] =
      LoopExit.errReturn { sounds_loop_init sampleSession with state := STATE_UNMATCHED } ∧
    ({ sounds_loop_init sampleSession with state := STATE_UNMATCHED }).state ≠
      sampleSession.state := by
  constructor
  · rfl
  · decide

/-- Claim C1 as amended: in `cm_sounds_loop`, a per-frame read timeout (or
any other exception of the read or header parsing) always aborts the loop,
whatever the remaining time in the sounding window: the handler sets the
session state to Unmatched and the coroutine returns, without attempting any
further read. -/
theorem c1_read_timeout_aborts (s : SlacSession) (acc : List Nat)
    (next : Option Nat) (rest : List ReadEvent) :
    cm_sounds_loop_go s acc next (ReadEvent.readErr :: rest) =
      LoopExit.errReturn { s with state := STATE_UNMATCHED } ∧
    cm_sounds_loop s (ReadEvent.readErr :: rest) =
      LoopExit.errReturn { sounds_loop_init s with state := STATE_UNMATCHED } :=
  ⟨rfl, rfl⟩

/-- Counterexample to claim C2: `reset()` does not leave `evse_mac`
unchanged (it clears it to the empty byte string), and afterwards `aag` is
not an array of 58 zero integers but the `dataclasses.field` sentinel
stored by `self.aag = field(default_factory=lambda: [0] * SLAC_GROUPS)`. -/
theorem c2_counterexample :
    (SlacSession.reset sampleSession).evse_mac ≠ sampleSession.evse_mac ∧
    (SlacSession.reset sampleSession).aag ≠
      AagField.vals (List.replicate SLAC_GROUPS 0) := by
  decide

/-- Claim C2 as amended: `reset()` leaves `nmk`, `nid` (and the MQTT
counter) unchanged and sets every other field to the method's assigned
default — but `evse_mac` is cleared to the empty byte string rather than
left unchanged, and `aag` receives the `dataclasses.field` sentinel rather
than an array of 58 zero integers. -/
theorem c2_reset_fields (s : SlacSession) :
    (SlacSession.reset s).nmk = s.nmk ∧
    (SlacSession.reset s).nid = s.nid ∧
    (SlacSession.reset s).mqtt_msg_counter = s.mqtt_msg_counter ∧
    (SlacSession.reset s).state = STATE_UNMATCHED ∧
    (SlacSession.reset s).forwarding_sta = [] ∧
    (SlacSession.reset s).pev_id = none ∧
    (SlacSession.reset s).pev_mac = [] ∧
    (SlacSession.reset s).evse_id = EVSE_ID_BYTES ∧
    (SlacSession.reset s).evse_mac = [] ∧
    (SlacSession.reset s).run_id = [] ∧
    (SlacSession.reset s).application_type = 0 ∧
    (SlacSession.reset s).security_type = 0 ∧
    (SlacSession.reset s).num_start_attn_rcvd = 0 ∧
    (SlacSession.reset s).num_expected_sounds = none ∧
    (SlacSession.reset s).num_total_sounds = 0 ∧
    (SlacSession.reset s).sounds = SLAC_MSOUNDS ∧
    (SlacSession.reset s).time_out_ms = SLAC_ATTEN_TIMEOUT ∧
    (SlacSession.reset s).aag = AagField.sentinel ∧
    (SlacSession.reset s).aag ≠ AagField.vals (List.replicate SLAC_GROUPS 0) ∧
    (SlacSession.reset s).num_groups = none ∧
    (SlacSession.reset s).rnd = List.replicate 17 0 ∧
    (SlacSession.reset s).slac_threshold = SLAC_LIMIT ∧
    (SlacSession.reset s).pause = SLAC_PAUSE ∧
    (SlacSession.reset s).settle_time = SLAC_SETTLE_TIME ∧
    (SlacSession.reset s).matching_process_task = none := by
  refine ⟨rfl, rfl, rfl, rfl, rfl, rfl, rfl, rfl, rfl, rfl, rfl, rfl, rfl,
    rfl, rfl, rfl, rfl, rfl, ?_, rfl, rfl, rfl, rfl, rfl, rfl⟩
  simp [SlacSession.reset]

/-- Counterexample to claim C3: on a CM_SLAC_MATCH.REQ whose run id 09…09
differs from the session's 01…01, `cm_slac_match` raises `ValueError`
instead of resetting the state — the session (still Matching) is returned
untouched inside the raised exit and no CNF is recorded. -/
theorem c3_counterexample :
    cm_slac_match sampleSession (Except.ok (pevEth, c3hp, c3req)) =
      MatchExit.raisedErr sampleSession ∧
    sampleSession.state ≠ STATE_UNMATCHED := by
  decide

/-- Claim C3 as amended: on a SLAC_MATCH.REQ whose run id differs from the
session's, `cm_slac_match` sends no MATCH.CNF and raises `ValueError`,
which propagates to the caller; the session state is left unchanged (it is
not reset to Unmatched). -/
theorem c3_match_wrong_run_id (s : SlacSession) (eth : EthernetHeader)
    (hp : HomePlugHeader) (req : MatchReq) (h : req.run_id ≠ s.run_id) :
    cm_slac_match s (Except.ok (eth, hp, req)) = MatchExit.raisedErr s := by
  simp only [cm_slac_match]
  rw [if_pos (Or.inr (Or.inr (Or.inr h)))]

/-- Concrete instantiation of `c3_match_wrong_run_id`. -/
theorem c3_witness :
    cm_slac_match sampleSession (Except.ok (pevEth, c3hp, c3req)) =
      MatchExit.raisedErr sampleSession :=
  c3_match_wrong_run_id sampleSession pevEth c3hp c3req (by decide)

/-- Counterexample to claim C5: a 33-byte SET_KEY.CNF whose result byte is
0xFF parses successfully, and `evse_set_key` nevertheless commits the fresh
key pair — the previous `nmk`/`nid` do not remain in effect. -/
theorem c5_counterexample :
    SetKeyCnf.from_bytes c5payload =
      Except.ok
        { result := 0xFF
          my_nonce := List.replicate 4 0
          your_nonce := List.replicate 4 0
          pid := 0
          prn := List.replicate 2 0
          pmn := 0
          cco_cap := 0 } ∧
    (evse_set_key sampleSession c5nmk c5nid c5payload).nmk = c5nmk ∧
    (evse_set_key sampleSession c5nmk c5nid c5payload).nid = c5nid ∧
    c5nmk ≠ sampleSession.nmk := by
  decide

/-- Claim C5 as amended: `evse_set_key` commits the freshly generated
`nmk`/`nid` pair exactly when the received SET_KEY.CNF parses (the data
reaches the declared 33-byte layout), regardless of the value of its result
byte; on a parse failure the previous `nmk` and `nid` remain in effect and
the function returns without raising. -/
theorem c5_set_key_commit (s : SlacSession) (nmk nid payload : List Nat) :
    evse_set_key s nmk nid payload =
      if 33 ≤ payload.length then { s with nmk := nmk, nid := nid } else s := by
  unfold evse_set_key SetKeyCnf.from_bytes
  rcases Nat.lt_or_ge payload.length 33 with h | h
  · rw [if_pos h, if_neg (by omega)]
  · rw [if_neg (by omega), if_pos (by omega)]

/-- Counterexample to claim C4: an MNBC sound frame carrying the session's
run id but a foreign source MAC makes `cm_sounds_loop` end in a raised
`ValueError` — the loop does not continue and the exception propagates
(the state and the sound counter are untouched at the raise). -/
theorem c4_counterexample :
    cm_sounds_loop sampleSession
        [ReadEvent.frame 10 c4eth c4hp (SoundPayload.mnbc c4m)] =
      LoopExit.raised (sounds_loop_init sampleSession) PyErr.valueError ∧
    (sounds_loop_init sampleSession).num_total_sounds = 0 ∧
    (sounds_loop_init sampleSession).state = sampleSession.state := by
  decide

/-- Claim C4 as amended: in the sounding loop, an MNBC_SOUND.IND frame
whose run id matches the session's but whose Ethernet source MAC differs
from `pev_mac` makes `process_sound_frame` raise `ValueError`; the call
sits outside the loop's `try`, so the exception propagates out of
`cm_sounds_loop` with the session untouched (`num_total_sounds` not
incremented, state unchanged) — the loop does not continue. -/
theorem c4_sound_bad_mac_raises (s : SlacSession) (acc : List Nat)
    (next : Option Nat) (rest : List ReadEvent) (elapsed : Nat)
    (eth : EthernetHeader) (hp : HomePlugHeader) (m : MnbcSound)
    (h1 : eth.ether_type = ETH_TYPE_HPAV) (h2 : hp.mmv = HOMEPLUG_MMV)
    (h3 : hp.mm_type = CM_MNBC_SOUND ||| MMTYPE_IND)
    (h4 : s.run_id = m.run_id) (h5 : s.pev_mac ≠ eth.src_mac) :
    cm_sounds_loop_go s acc next
        (ReadEvent.frame elapsed eth hp (SoundPayload.mnbc m) :: rest) =
      LoopExit.raised s PyErr.valueError := by
  have hproc : process_sound_frame s hp eth (SoundPayload.mnbc m) 0 acc =
      Except.error PyErr.valueError := by
    simp [process_sound_frame, MnbcSound.from_bytes, h3, h4, h5]
  simp [cm_sounds_loop_go, h1, h2, hproc]

/-- Concrete instantiation of `c4_sound_bad_mac_raises`. -/
theorem c4_witness :
    cm_sounds_loop_go sampleSession (List.replicate SLAC_GROUPS 0)
        (some FramesSizes.CM_MNBC_SOUND_IND)
        [ReadEvent.frame 10 c4eth c4hp (SoundPayload.mnbc c4m)] =
      LoopExit.raised sampleSession PyErr.valueError :=
  c4_sound_bad_mac_raises sampleSession (List.replicate SLAC_GROUPS 0)
    (some FramesSizes.CM_MNBC_SOUND_IND) [] 10 c4eth c4hp c4m
    (by decide) (by decide) (by decide) (by decide) (by decide)

/-- Helper for claim C9: frames that fail the HPAV EtherType or MMV check
leave the loop state entirely unchanged, and the loop keeps reading. -/
theorem cm_sounds_loop_go_nonqual (events : List ReadEvent) :
    ∀ (s : SlacSession) (acc : List Nat) (next : Option Nat),
      (∀ e ∈ events, nonQualifying e) →
      cm_sounds_loop_go s acc next events = LoopExit.exhausted s acc next := by
  induction events with
  | nil => intro s acc next _; rfl
  | cons e rest ih =>
    intro s acc next h
    have he : nonQualifying e := h e (List.mem_cons_self e rest)
    have hrest : ∀ e ∈ rest, nonQualifying e :=
      fun x hx => h x (List.mem_cons_of_mem e hx)
    cases e with
    | readErr => exact absurd he (by simp [nonQualifying])
    | frame elapsed eth hp payload =>
      have : ¬(eth.ether_type = ETH_TYPE_HPAV ∧ hp.mmv = HOMEPLUG_MMV) := he
      simp only [cm_sounds_loop_go, if_neg this]
      exact ih s acc next hrest

/-- Claim C9, confirmed: the sounding-window expiry check runs only after a
frame with EtherType 0x88E1 and MMV 0x01; on any finite trace in which
every read returns a frame failing that check (and no read raises), the
loop consumes the entire trace and is still waiting for the next frame —
it never terminates — no matter how large the elapsed times attached to
the frames are (far beyond `time_out_ms`). -/
theorem c9_no_expiry_without_hpav (s : SlacSession) (events : List ReadEvent)
    (h : ∀ e ∈ events, nonQualifying e) :
    cm_sounds_loop s events =
      LoopExit.exhausted (sounds_loop_init s) (List.replicate SLAC_GROUPS 0)
        (some FramesSizes.CM_MNBC_SOUND_IND) :=
  cm_sounds_loop_go_nonqual events (sounds_loop_init s)
    (List.replicate SLAC_GROUPS 0) (some FramesSizes.CM_MNBC_SOUND_IND) h

/-- Concrete instantiation of `c9_no_expiry_without_hpav`: two non-HPAV
frames observed 1000 and 2000 seconds into a 900 ms window still do not
terminate the loop. -/
theorem c9_witness :
    cm_sounds_loop sampleSession c9events =
      LoopExit.exhausted (sounds_loop_init sampleSession)
        (List.replicate SLAC_GROUPS 0) (some FramesSizes.CM_MNBC_SOUND_IND) :=
  c9_no_expiry_without_hpav sampleSession c9events (by decide)

/-- Claim C10, confirmed: an HPAV frame with MMV 0x01 whose MM type is
neither CM_MNBC_SOUND.IND nor CM_ATTEN_PROFILE.IND makes
`process_sound_frame` return no size (Python `None`), and — when the loop
continues — `cm_sounds_loop` passes that `none` as the expected frame size
of the next read, discarding the previously expected size `next`. -/
theorem c10_next_frame_none (s : SlacSession) (acc : List Nat)
    (next : Option Nat) (rest : List ReadEvent) (elapsed : Nat)
    (eth : EthernetHeader) (hp : HomePlugHeader) (payload : SoundPayload)
    (nexp : Nat)
    (hq1 : eth.ether_type = ETH_TYPE_HPAV) (hq2 : hp.mmv = HOMEPLUG_MMV)
    (h3 : hp.mm_type ≠ CM_MNBC_SOUND ||| MMTYPE_IND)
    (h4 : hp.mm_type ≠ CM_ATTEN_PROFILE ||| MMTYPE_IND)
    (h5 : elapsed < s.time_out_ms) (h6 : s.num_expected_sounds = some nexp)
    (h7 : s.num_total_sounds < nexp) :
    process_sound_frame s hp eth payload 0 acc = Except.ok (s, acc, none) ∧
    cm_sounds_loop_go s acc next
        (ReadEvent.frame elapsed eth hp payload :: rest) =
      cm_sounds_loop_go s acc none rest := by
  have hproc : process_sound_frame s hp eth payload 0 acc =
      Except.ok (s, acc, none) := by
    unfold process_sound_frame
    rw [if_neg h3, if_neg h4]
  refine ⟨hproc, ?_⟩
  simp only [cm_sounds_loop_go, if_pos (And.intro hq1 hq2), hproc]
  rw [if_pos h5]
  simp only [h6]
  rw [if_pos h7]

/-- Concrete instantiation of `c10_next_frame_none`: a CM_SLAC_PARM.CNF
frame arriving 10 ms into the window. -/
theorem c10_witness :
    process_sound_frame sampleSession c10hp pevEth SoundPayload.other 0
        (List.replicate SLAC_GROUPS 0) =
      Except.ok (sampleSession, List.replicate SLAC_GROUPS 0, none) ∧
    cm_sounds_loop_go sampleSession (List.replicate SLAC_GROUPS 0)
        (some FramesSizes.CM_ATTEN_PROFILE_IND)
        [ReadEvent.frame 10 pevEth c10hp SoundPayload.other] =
      cm_sounds_loop_go sampleSession (List.replicate SLAC_GROUPS 0) none [] :=
  c10_next_frame_none sampleSession (List.replicate SLAC_GROUPS 0)
    (some FramesSizes.CM_ATTEN_PROFILE_IND) [] 10 pevEth c10hp
    SoundPayload.other 10 (by decide) (by decide) (by decide) (by decide)
    (by decide) (by decide) (by decide)

/-- `finish_avg` never touches the sound counter. -/
theorem finish_avg_num_total (s : SlacSession) (acc : List Nat) :
    (finish_avg s acc).num_total_sounds = s.num_total_sounds := by
  unfold finish_avg
  split <;> rfl

/-- Characterisation of a successful `process_sound_frame` call: the run
identifiers, window, state and `aag` attribute are untouched, the counter
grows by at most one, and the reference aggregation `soundAgg` advances over
the processed frame exactly as the call advanced the accumulator and the
counter. -/
theorem process_ok_step (s : SlacSession) (hp : HomePlugHeader)
    (eth : EthernetHeader) (payload : SoundPayload) (acc : List Nat)
    (s1 : SlacSession) (acc1 : List Nat) (next1 : Option Nat)
    (hq1 : eth.ether_type = ETH_TYPE_HPAV) (hq2 : hp.mmv = HOMEPLUG_MMV)
    (hps : process_sound_frame s hp eth payload 0 acc =
      Except.ok (s1, acc1, next1)) :
    s1.pev_mac = s.pev_mac ∧ s1.aag = s.aag ∧
    s1.num_expected_sounds = s.num_expected_sounds ∧
    s1.time_out_ms = s.time_out_ms ∧ s1.state = s.state ∧
    s1.run_id = s.run_id ∧
    s1.num_total_sounds ≤ s.num_total_sounds + 1 ∧
    ∀ (elapsed : Nat) (l : List ReadEvent),
      soundAgg s.pev_mac (acc, s.num_total_sounds)
        (ReadEvent.frame elapsed eth hp payload :: l) =
      soundAgg s.pev_mac (acc1, s1.num_total_sounds) l := by
  unfold process_sound_frame at hps
  by_cases h1 : hp.mm_type = CM_MNBC_SOUND ||| MMTYPE_IND
  · rw [if_pos h1] at hps
    cases payload with
    | mnbc m =>
      simp only [MnbcSound.from_bytes] at hps
      by_cases h2 : s.run_id = m.run_id
      · rw [if_pos h2] at hps
        by_cases h3 : s.pev_mac ≠ eth.src_mac
        · rw [if_pos h3] at hps
          simp at hps
        · rw [if_neg h3] at hps
          simp only [Except.ok.injEq, Prod.mk.injEq] at hps
          obtain ⟨hs, hacc, -⟩ := hps
          subst hs
          subst hacc
          exact ⟨rfl, rfl, rfl, rfl, rfl, rfl, Nat.le_succ _,
            fun elapsed l => rfl⟩
      · rw [if_neg h2] at hps
        simp only [Except.ok.injEq, Prod.mk.injEq] at hps
        obtain ⟨hs, hacc, -⟩ := hps
        subst hs
        subst hacc
        exact ⟨rfl, rfl, rfl, rfl, rfl, rfl, Nat.le_succ _,
          fun elapsed l => rfl⟩
    | profile p => simp [MnbcSound.from_bytes] at hps
    | other => simp [MnbcSound.from_bytes] at hps
  · rw [if_neg h1] at hps
    by_cases h2 : hp.mm_type = CM_ATTEN_PROFILE ||| MMTYPE_IND
    · rw [if_pos h2] at hps
      cases payload with
      | mnbc m => simp [AttenProfile.from_bytes] at hps
      | other => simp [AttenProfile.from_bytes] at hps
      | profile p =>
        simp only [AttenProfile.from_bytes] at hps
        by_cases h3 : s.pev_mac = p.pev_mac
        · rw [if_pos h3] at hps
          by_cases h4 : p.num_groups ≤ acc.length ∧
              p.num_groups ≤ p.aag.length
          · rw [if_pos h4] at hps
            simp only [Except.ok.injEq, Prod.mk.injEq] at hps
            obtain ⟨hs, hacc, -⟩ := hps
            subst hs
            subst hacc
            refine ⟨rfl, rfl, rfl, rfl, rfl, rfl, Nat.le_refl _, ?_⟩
            intro elapsed l
            simp only [soundAgg]
            rw [if_pos ⟨hq1, hq2, h2, h3⟩]
          · rw [if_neg h4] at hps
            simp at hps
        · rw [if_neg h3] at hps
          simp only [Except.ok.injEq, Prod.mk.injEq] at hps
          obtain ⟨hs, hacc, -⟩ := hps
          subst hs
          subst hacc
          refine ⟨rfl, rfl, rfl, rfl, rfl, rfl, Nat.le_succ _, ?_⟩
          intro elapsed l
          simp only [soundAgg]
          rw [if_neg (fun hc => h3 hc.2.2.2)]
    · rw [if_neg h2] at hps
      simp only [Except.ok.injEq, Prod.mk.injEq] at hps
      obtain ⟨hs, hacc, -⟩ := hps
      subst hs
      subst hacc
      refine ⟨rfl, rfl, rfl, rfl, rfl, rfl, Nat.le_succ _, ?_⟩
      intro elapsed l
      cases payload with
      | profile p =>
        simp only [soundAgg]
        rw [if_neg (fun hc => h2 hc.2.2.1)]
      | mnbc m => rfl
      | other => rfl

/-- Invariant of the sounding loop for claim C6: whenever the loop body
returns through the averaging branch, some prefix of the trace accounts for
the final counter, and the final `aag` is the banker-rounded average of the
sums accumulated by the reference aggregation over that prefix (or the
attribute left untouched when no sound was aggregated). -/
theorem cm_sounds_loop_go_agg (events : List ReadEvent) :
    ∀ (s : SlacSession) (acc : List Nat) (next : Option Nat)
      (s' : SlacSession),
      cm_sounds_loop_go s acc next events = LoopExit.returned s' →
      ∃ k,
        s'.num_total_sounds =
          (soundAgg s.pev_mac (acc, s.num_total_sounds)
            (List.take k events)).2 ∧
        (0 < s'.num_total_sounds →
          s'.aag = AagField.vals ((List.range SLAC_GROUPS).map fun g =>
            half_round
              ((soundAgg s.pev_mac (acc, s.num_total_sounds)
                (List.take k events)).1.getD g 0)
              s'.num_total_sounds)) ∧
        (s'.num_total_sounds = 0 → s'.aag = s.aag) := by
  induction events with
  | nil =>
    intro s acc next s' h
    simp [cm_sounds_loop_go] at h
  | cons e rest ih =>
    intro s acc next s' h
    cases e with
    | readErr => simp [cm_sounds_loop_go] at h
    | frame elapsed eth hp payload =>
      simp only [cm_sounds_loop_go] at h
      by_cases hq : eth.ether_type = ETH_TYPE_HPAV ∧ hp.mmv = HOMEPLUG_MMV
      · rw [if_pos hq] at h
        split at h
        · simp at h
        · rename_i s1 acc1 next1 hps
          obtain ⟨hpev, haag, hexp, htov, hstate, hrun, hle, hstep⟩ :=
            process_ok_step s hp eth payload acc s1 acc1 next1 hq.1 hq.2 hps
          have hfin :
              LoopExit.returned (finish_avg s1 acc1) = LoopExit.returned s' →
              ∃ k,
                s'.num_total_sounds =
                  (soundAgg s.pev_mac (acc, s.num_total_sounds)
                    (List.take k (ReadEvent.frame elapsed eth hp payload ::
                      rest))).2 ∧
                (0 < s'.num_total_sounds →
                  s'.aag = AagField.vals
                    ((List.range SLAC_GROUPS).map fun g =>
                      half_round
                        ((soundAgg s.pev_mac (acc, s.num_total_sounds)
                          (List.take k (ReadEvent.frame elapsed eth hp
                            payload :: rest))).1.getD g 0)
                        s'.num_total_sounds)) ∧
                (s'.num_total_sounds = 0 → s'.aag = s.aag) := by
            intro hret
            injection hret with hret'
            subst hret'
            have hagg : soundAgg s.pev_mac (acc, s.num_total_sounds)
                (List.take 1 (ReadEvent.frame elapsed eth hp payload ::
                  rest)) = (acc1, s1.num_total_sounds) := by
              rw [List.take_succ_cons, List.take_zero,
                hstep elapsed []]
              rfl
            refine ⟨1, ?_, ?_, ?_⟩
            · rw [hagg, finish_avg_num_total]
            · intro hpos
              rw [finish_avg_num_total] at hpos ⊢
              rw [hagg]
              unfold finish_avg
              rw [if_pos hpos]
            · intro h0
              rw [finish_avg_num_total] at h0
              unfold finish_avg
              rw [if_neg (by omega)]
              rw [haag]
          split at h
          · split at h
            · simp at h
            · rename_i nexp hnexp
              split at h
              · rename_i hcnt
                obtain ⟨k, hk1, hk2, hk3⟩ := ih s1 acc1 next1 s' h
                rw [hpev] at hk1 hk2
                refine ⟨k + 1, ?_, ?_, ?_⟩
                · rw [List.take_succ_cons, hstep elapsed (List.take k rest)]
                  exact hk1
                · intro hpos
                  rw [List.take_succ_cons, hstep elapsed (List.take k rest)]
                  exact hk2 hpos
                · intro h0
                  rw [hk3 h0, haag]
              · exact hfin h
          · exact hfin h
      · rw [if_neg hq] at h
        obtain ⟨k, hk1, hk2, hk3⟩ := ih s acc next s' h
        have hskip : ∀ l : List ReadEvent,
            soundAgg s.pev_mac (acc, s.num_total_sounds)
              (ReadEvent.frame elapsed eth hp payload :: l) =
            soundAgg s.pev_mac (acc, s.num_total_sounds) l := by
          intro l
          cases payload with
          | profile p =>
            simp only [soundAgg]
            rw [if_neg (fun hc => hq ⟨hc.1, hc.2.1⟩)]
          | mnbc m => rfl
          | other => rfl
        refine ⟨k + 1, ?_, ?_, hk3⟩
        · rw [List.take_succ_cons, hskip (List.take k rest)]
          exact hk1
        · intro hpos
          rw [List.take_succ_cons, hskip (List.take k rest)]
          exact hk2 hpos

/-- Claim C6, confirmed: when `cm_sounds_loop` terminates normally, there is
a processed prefix of the trace such that `num_total_sounds` counts exactly
the accepted ATTEN_PROFILE.IND frames of that prefix and — when that count
is positive — every `aag[g]` equals the half-rounded (banker) average of the
accumulated per-group sums divided by `num_total_sounds`; when the count is
zero the session `aag` is left equal to the all-zero array installed at loop
entry. -/
theorem c6_sound_average (s : SlacSession) (events : List ReadEvent)
    (s' : SlacSession)
    (h : cm_sounds_loop s events = LoopExit.returned s') :
    ∃ k,
      s'.num_total_sounds =
        (soundAgg s.pev_mac (List.replicate SLAC_GROUPS 0, 0)
          (List.take k events)).2 ∧
      (0 < s'.num_total_sounds →
        s'.aag = AagField.vals ((List.range SLAC_GROUPS).map fun g =>
          half_round
            ((soundAgg s.pev_mac (List.replicate SLAC_GROUPS 0, 0)
              (List.take k events)).1.getD g 0)
            s'.num_total_sounds)) ∧
      (s'.num_total_sounds = 0 →
        s'.aag = AagField.vals (List.replicate SLAC_GROUPS 0)) :=
  cm_sounds_loop_go_agg events (sounds_loop_init s)
    (List.replicate SLAC_GROUPS 0) (some FramesSizes.CM_MNBC_SOUND_IND) s' h

/-- Concrete instantiation of `c6_sound_average`: two profiles with group
values (4, 6) and (5, 6) average — banker-rounded — to (4, 6): the sums are
(9, 12), 9/2 rounds to the even 4 and 12/2 is 6. -/
theorem c6_witness :
    cm_sounds_loop c6s c6events = LoopExit.returned c6s_final ∧
    ∃ k,
      c6s_final.num_total_sounds =
        (soundAgg c6s.pev_mac (List.replicate SLAC_GROUPS 0, 0)
          (List.take k c6events)).2 ∧
      (0 < c6s_final.num_total_sounds →
        c6s_final.aag = AagField.vals ((List.range SLAC_GROUPS).map fun g =>
          half_round
            ((soundAgg c6s.pev_mac (List.replicate SLAC_GROUPS 0, 0)
              (List.take k c6events)).1.getD g 0)
            c6s_final.num_total_sounds)) ∧
      (c6s_final.num_total_sounds = 0 →
        c6s_final.aag = AagField.vals (List.replicate SLAC_GROUPS 0)) :=
  ⟨by decide, c6_sound_average c6s c6events c6s_final (by decide)⟩

/-- Invariant of the sounding loop for claim C7: while the counter is
strictly below the expected number of sounds, no exit of the loop body can
carry a counter above that expectation. -/
theorem cm_sounds_loop_go_bound (events : List ReadEvent) :
    ∀ (s : SlacSession) (acc : List Nat) (next : Option Nat) (nexp : Nat),
      s.num_expected_sounds = some nexp → s.num_total_sounds < nexp →
      (LoopExit.session
        (cm_sounds_loop_go s acc next events)).num_total_sounds ≤ nexp := by
  induction events with
  | nil =>
    intro s acc next nexp hexp hlt
    exact Nat.le_of_lt hlt
  | cons e rest ih =>
    intro s acc next nexp hexp hlt
    cases e with
    | readErr => exact Nat.le_of_lt hlt
    | frame elapsed eth hp payload =>
      simp only [cm_sounds_loop_go]
      by_cases hq : eth.ether_type = ETH_TYPE_HPAV ∧ hp.mmv = HOMEPLUG_MMV
      · rw [if_pos hq]
        split
        · exact Nat.le_of_lt hlt
        · rename_i s1 acc1 next1 hps
          obtain ⟨hpev, haag, hexp1, htov, hstate, hrun, hle, hstep⟩ :=
            process_ok_step s hp eth payload acc s1 acc1 next1 hq.1 hq.2 hps
          have hexp1' : s1.num_expected_sounds = some nexp := by
            rw [hexp1, hexp]
          have hb : s1.num_total_sounds ≤ nexp :=
            le_trans hle (Nat.succ_le_of_lt hlt)
          by_cases ht : elapsed < s1.time_out_ms
          · rw [if_pos ht, hexp1']
            show (LoopExit.session
              (if s1.num_total_sounds < nexp then
                cm_sounds_loop_go s1 acc1 next1 rest
              else
                LoopExit.returned (finish_avg s1 acc1))).num_total_sounds ≤ nexp
            by_cases hcnt : s1.num_total_sounds < nexp
            · rw [if_pos hcnt]
              exact ih s1 acc1 next1 nexp hexp1' hcnt
            · rw [if_neg hcnt]
              show (finish_avg s1 acc1).num_total_sounds ≤ nexp
              rw [finish_avg_num_total]
              exact hb
          · rw [if_neg ht]
            show (finish_avg s1 acc1).num_total_sounds ≤ nexp
            rw [finish_avg_num_total]
            exact hb
      · rw [if_neg hq]
        exact ih s acc next nexp hexp hlt

/-- Counterexample to claim C7: with `num_expected_sounds = 0` (a value of
the START_ATTEN_CHAR.IND byte the code accepts), a single attenuation
profile accepted 10 ms into a 900 ms window makes the loop exit normally
with `num_total_sounds = 1 > 0 = num_expected_sounds` while time remains in
the sounding window. -/
theorem c7_counterexample :
    (cm_sounds_loop c7s c7events).isReturned = true ∧
    (LoopExit.session (cm_sounds_loop c7s c7events)).num_total_sounds = 1 ∧
    c7s.num_expected_sounds = some 0 ∧
    ¬(1 ≤ 0) ∧
    10 < c7s.time_out_ms := by
  decide

/-- Claim C7 as amended: whenever `cm_sounds_loop` exits its reception loop
and `num_expected_sounds` was set to some `n ≥ 1`, the exit satisfies
`num_total_sounds ≤ n` outright (whether or not the window expired); the
case `n = 0` must be excluded, since a single accepted profile then exits
with `num_total_sounds = 1` while time remains. -/
theorem c7_sound_exit_bound (s : SlacSession) (events : List ReadEvent)
    (nexp : Nat) (h1 : s.num_expected_sounds = some nexp) (h2 : 1 ≤ nexp) :
    (LoopExit.session
      (cm_sounds_loop s events)).num_total_sounds ≤ nexp := by
  apply cm_sounds_loop_go_bound
  · exact h1
  · exact h2

/-- Concrete instantiation of `c7_sound_exit_bound`: the two-profile run of
claim C6 exits with 2 = expected sounds aggregated. -/
theorem c7_witness :
    (LoopExit.session
      (cm_sounds_loop c6s c6events)).num_total_sounds ≤ 2 :=
  c7_sound_exit_bound c6s c6events 2 (by decide) (by decide)

/-- Claim C8, confirmed: when `cm_atten_char` receives an ATTEN_CHAR.RSP
whose run id differs from the session's but whose result byte is 0, it sets
the state to Unmatched yet returns normally (the mismatch branch has no
return and the result branch does not fire), so `atten_charac_routine`
proceeds to `cm_slac_match`; a subsequent well-formed SLAC_MATCH.REQ with
the session's run id then makes the routine finish with a MATCH.CNF sent
and the state set to Matched despite the earlier mismatch. -/
theorem c8_atten_mismatch_still_matches (s s2 : SlacSession)
    (startRead : Except Unit (EthernetHeader × HomePlugHeader × StartAtennChar))
    (soundEvents : List ReadEvent)
    (eth : EthernetHeader) (hp : HomePlugHeader) (rsp : AtennCharRsp)
    (meth : EthernetHeader) (mhp : HomePlugHeader) (mreq : MatchReq)
    (hsl : cm_sounds_loop (cm_start_atten_charac s startRead) soundEvents =
      LoopExit.returned s2)
    (hrid : s2.run_id ≠ rsp.run_id) (hres : rsp.result = 0)
    (hm1 : meth.ether_type = ETH_TYPE_HPAV) (hm2 : mhp.mmv = HOMEPLUG_MMV)
    (hm3 : mhp.mm_type = CM_SLAC_MATCH ||| MMTYPE_REQ)
    (hm4 : mreq.run_id = s2.run_id) :
    cm_atten_char s2 (Except.ok (eth, hp, rsp)) =
      { s2 with state := STATE_UNMATCHED } ∧
    atten_charac_routine s startRead soundEvents (Except.ok (eth, hp, rsp))
        (Except.ok (meth, mhp, mreq)) =
      RoutineExit.done
        { s2 with
            state := STATE_MATCHED
            pev_id := some mreq.pev_id
            pev_mac := mreq.pev_mac }
        (some { pev_mac := mreq.pev_mac
                evse_mac := s2.evse_mac
                run_id := s2.run_id
                nid := s2.nid
                nmk := s2.nmk }) ∧
    STATE_MATCHED ≠ STATE_UNMATCHED := by
  have ha : cm_atten_char s2 (Except.ok (eth, hp, rsp)) =
      { s2 with state := STATE_UNMATCHED } := by
    simp only [cm_atten_char]
    rw [if_pos (Or.inr (Or.inr hrid))]
    rw [if_neg (by omega)]
  have hb : cm_slac_match ({ s2 with state := STATE_UNMATCHED })
      (Except.ok (meth, mhp, mreq)) =
      MatchExit.returned
        { s2 with
            state := STATE_MATCHED
            pev_id := some mreq.pev_id
            pev_mac := mreq.pev_mac }
        (some { pev_mac := mreq.pev_mac
                evse_mac := s2.evse_mac
                run_id := s2.run_id
                nid := s2.nid
                nmk := s2.nmk }) := by
    simp only [cm_slac_match]
    rw [if_neg (by
      intro hc
      rcases hc with hc | hc | hc | hc
      · exact hc hm1
      · exact hc hm2
      · exact hc hm3
      · exact hc hm4)]
  refine ⟨ha, ?_, by decide⟩
  simp only [atten_charac_routine, hsl, ha, hb]

/-- Concrete instantiation of `c8_atten_mismatch_still_matches`: a full
routine run — valid START_ATTEN_CHAR, one accepted profile, an
ATTEN_CHAR.RSP with foreign run id 09…09 and result 0, then a valid
SLAC_MATCH.REQ — ends Matched with a MATCH.CNF sent. -/
theorem c8_witness :
    cm_atten_char c8s2 (Except.ok (pevEth, c8ahp, c8rsp)) =
      { c8s2 with state := STATE_UNMATCHED } ∧
    atten_charac_routine sampleSession c8start c8sounds
        (Except.ok (pevEth, c8ahp, c8rsp)) (Except.ok (pevEth, c8mhp, c8mreq)) =
      RoutineExit.done
        { c8s2 with
            state := STATE_MATCHED
            pev_id := some c8mreq.pev_id
            pev_mac := c8mreq.pev_mac }
        (some { pev_mac := c8mreq.pev_mac
                evse_mac := c8s2.evse_mac
                run_id := c8s2.run_id
                nid := c8s2.nid
                nmk := c8s2.nmk }) ∧
    STATE_MATCHED ≠ STATE_UNMATCHED :=
  c8_atten_mismatch_still_matches sampleSession c8s2 c8start c8sounds
    pevEth c8ahp c8rsp pevEth c8mhp c8mreq (by decide) (by decide)
    (by decide) (by decide) (by decide) (by decide) (by decide)
